import Mathlib

/-!
Verification of the AnilistScores command-line program (src/main.rs).

The program queries the Anilist GraphQL API for the media lists of a user,
extracts (mediaId, score) pairs from the "Watching" and "Completed" lists,
fetches global average scores in one batched query with aliases
query_0, query_1, ..., joins the sequences into reports, writes a CSV per
list and prints the ratio of the user score sum to the global average sum.

The development below shallowly embeds the pure data manipulation of the
program: JSON values (the serde_json Value type, whose object maps are BTreeMaps
iterated in ascending key order), the entry parser parse_entry_values,
the batched average-score extraction in run_query_avg_scores, the list
filter in get_anilist_scores, the dataframe join in as_dataframe/to_csv,
startup argument handling and the printed taste ratio.  Network transport
is abstracted as an oracle assigning an outcome to each issued query.
-/

namespace Anilist

/-- JSON values, mirroring the serde_json Value type.  Numbers distinguish
integer-backed numbers (the serde i64/u64 representations) from
float-backed numbers, since Value::as_i64 succeeds only on the former;
float payloads are modelled as rationals.  Objects carry their field
list; the serde object map is a BTreeMap, so iteration order is modelled by
sorting the fields by key wherever the code calls as_object (see
Json.as_object below). -/
inductive Json where
  | null : Json
  | bool (b : Bool) : Json
  | intNum (n : Int) : Json
  | floatNum (q : Rat) : Json
  | str (s : String) : Json
  | arr (elems : List Json) : Json
  | obj (fields : List (String × Json)) : Json

/-- Value::get with a string key: Some on an object containing the key,
None on any other value (mirrors the serde_json Index impl for &str). -/
def Json.get : Json → String → Option Json
  | .obj fields, key => fields.lookup key
  | _, _ => none

/-- Value::as_i64: Some exactly on integer-backed numbers within i64
range (serde stores larger positive integers as u64, for which as_i64
returns None), None on float-backed numbers and all non-numbers. -/
def Json.as_i64 : Json → Option Int
  | .intNum n => if -(2 ^ 63) ≤ n ∧ n < 2 ^ 63 then some n else none
  | _ => none

/-- Value::as_array. -/
def Json.as_array : Json → Option (List Json)
  | .arr elems => some elems
  | _ => none

/-- Value::as_str. -/
def Json.as_str : Json → Option String
  | .str s => some s
  | _ => none

/-- Lexicographic comparison of character lists, modelling the Rust Ord
for String (byte-lexicographic on UTF-8, which coincides with
codepoint-lexicographic order). -/
def strLeB : List Char → List Char → Bool
  | [], _ => true
  | _ :: _, [] => false
  | c :: cs, d :: ds => if c < d then true else if d < c then false else strLeB cs ds

/-- Rust `a <= b` on strings. -/
def strLe (a b : String) : Prop := strLeB a.data b.data = true

/-- Rust `a < b` on strings: the negation of `b <= a` in a total
order. -/
def strLt (a b : String) : Prop := strLeB b.data a.data = false

instance : DecidableRel strLe := fun _ _ => inferInstanceAs (Decidable (_ = true))

instance : DecidableRel strLt := fun _ _ => inferInstanceAs (Decidable (_ = false))

/-- Ordering on object fields by key; the serde_json object map is a
BTreeMap ordered by the String key. -/
def keyLe (a b : String × Json) : Prop := strLe a.1 b.1

instance : DecidableRel keyLe := fun a b => inferInstanceAs (Decidable (strLe a.1 b.1))

/-- Value::as_object: the fields of an object in BTreeMap iteration
order, i.e. ascending by key.  None on non-objects. -/
def Json.as_object : Json → Option (List (String × Json))
  | .obj fields => some (List.insertionSort keyLe fields)
  | _ => none

/-- str::replace over a character list, with explicit fuel for
structural recursion: the leftmost occurrence of pat is replaced by rep
and scanning resumes after the replaced text. -/
def replaceCore (pat rep : List Char) : Nat → List Char → List Char
  | _, [] => []
  | 0, s => s
  | fuel + 1, c :: cs =>
    if pat ≠ [] ∧ pat.isPrefixOf (c :: cs) then
      rep ++ replaceCore pat rep fuel ((c :: cs).drop pat.length)
    else
      c :: replaceCore pat rep fuel cs

/-- Rust str::replace (all occurrences, leftmost first). -/
def rustReplace (s pat rep : String) : String :=
  ⟨replaceCore pat.data rep.data s.data.length s.data⟩

/-- The loop body of parse_entry_values: walk the entries array in order; an
element with both a "mediaId" and a "score" field that both coerce with
as_i64 contributes to both output vectors, any other element is
skipped. -/
def parseEntriesLoop : List Json → List Int × List Int
  | [] => ([], [])
  | e :: rest =>
    let tail := parseEntriesLoop rest
    match e.get "mediaId", e.get "score" with
    | some idVal, some scoreVal =>
      match idVal.as_i64, scoreVal.as_i64 with
      | some id, some score => (id :: tail.1, score :: tail.2)
      | _, _ => tail
    | _, _ => tail

/-- parse_entry_values: the entries field is read with get and coerced
with and_then over as_array, then the push loop runs; an absent or
non-array entries field yields two empty vectors. -/
def parse_entry_values (listValue : Json) : List Int × List Int :=
  match (listValue.get "entries").bind Json.as_array with
  | none => ([], [])
  | some entries => parseEntriesLoop entries

/-- Whether an entries-array element is kept by parse_entry_values. -/
def wellFormedEntry (e : Json) : Bool :=
  match e.get "mediaId", e.get "score" with
  | some idVal, some scoreVal =>
    match idVal.as_i64, scoreVal.as_i64 with
    | some _, some _ => true
    | _, _ => false
  | _, _ => false

/-- The mediaId parse_entry_values extracts from a well-formed element. -/
def entryId (e : Json) : Int :=
  (((e.get "mediaId").bind Json.as_i64).getD 0)

/-- The score parse_entry_values extracts from a well-formed element. -/
def entryScore (e : Json) : Int :=
  (((e.get "score").bind Json.as_i64).getD 0)

/-- Per-alias score extraction in run_query_avg_scores: read
"averageScore" from the alias value, defaulting to 0 when the field is
absent (the else branch) or not integer-backed (unwrap_or(0)). -/
def avgScoreOf (v : Json) : Int :=
  match v.get "averageScore" with
  | some s => (s.as_i64).getD 0
  | none => 0

/-- Ordering used by `avg_scores.sort()` on Vec<(String, i64)>: the
derived lexicographic tuple order with strings compared lexicographically
(the Ord that Rust derives for tuples). -/
def pairLe (a b : String × Int) : Prop :=
  strLt a.1 b.1 ∨ (a.1 = b.1 ∧ a.2 ≤ b.2)

instance : DecidableRel pairLe := fun a b =>
  inferInstanceAs (Decidable (strLt a.1 b.1 ∨ (a.1 = b.1 ∧ a.2 ≤ b.2)))

/-- The response-processing tail of run_query_avg_scores: the data
field is read with get and unwrap, coerced with as_object and unwrap
(both unwraps modelled as None = panic), then each alias-value pair is
mapped to the pair of the alias with its query prefix replaced away and
the averageScore-or-0, the pair vector is sorted, and only the scores
are returned. -/
def run_query_avg_scores_extract (res : Json) : Option (List Int) :=
  match res.get "data" with
  | none => none
  | some dataVal =>
    match dataVal.as_object with
    | none => none
    | some fields =>
      let avgScores := fields.map (fun kv => (rustReplace kv.1 "query_" "", avgScoreOf kv.2))
      some ((List.insertionSort pairLe avgScores).map Prod.snd)

/-- A batched-average response whose data object holds the given alias
fields. -/
def batchedResponse (fields : List (String × Json)) : Json :=
  .obj [("data", .obj fields)]

/-- The alias fields of a batched-average request of size k in request
order: alias query_i paired with the per-alias response value v i. -/
def canonicalFields (k : Nat) (v : Nat → Json) : List (String × Json) :=
  (List.range k).map (fun i => ("query_" ++ toString i, v i))

/-- Outcome of one HTTP round trip, abstracting the network: the send
can fail, the body can fail to decode to text, the text can fail to
parse as JSON, or a JSON body is delivered. -/
inductive NetResult where
  | sendFailure : NetResult
  | textFailure : NetResult
  | badJson : NetResult
  | ok (body : Json) : NetResult

/-- Result of run_query as observed by its callers: `.expect("Query
failed.")` on the send makes a send failure a process-aborting panic;
the two body-decoding failures are returned as Err values. -/
inductive QueryOutcome where
  | panicked (msg : String) : QueryOutcome
  | err (msg : String) : QueryOutcome
  | ok (v : Json) : QueryOutcome

/-- run_query: posts the query and decodes the response.  A send
failure panics via expect; a text-decoding failure and a JSON parse
failure are returned as the two Err messages of the source. -/
def run_query : NetResult → QueryOutcome
  | .sendFailure => .panicked "Query failed."
  | .textFailure => .err "Cannot retrieve query response text."
  | .badJson => .err "Malformed query response. Cannot convert to str."
  | .ok v => .ok v

/-- Result of run_query_avg_scores: Ok scores, the Err("Query failed.")
branch, or a panic (from the send expect in run_query, or from the two
unwraps on "data" / as_object). -/
inductive AvgScoresResult where
  | panicked : AvgScoresResult
  | err (msg : String) : AvgScoresResult
  | ok (scores : List Int) : AvgScoresResult

/-- run_query_avg_scores: issue the batched query, return
Err("Query failed.") if run_query returned an Err, propagate panics,
and otherwise extract the sorted score vector (whose two unwraps panic
when "data" is absent or not an object). -/
def run_query_avg_scores (net : NetResult) : AvgScoresResult :=
  match run_query net with
  | .panicked _ => .panicked
  | .err _ => .err "Query failed."
  | .ok res =>
    match run_query_avg_scores_extract res with
    | none => .panicked
    | some scores => .ok scores

/-- The AnilistScores record of the source: one report per kept list. -/
structure AnilistScores where
  list_type : String
  anilist_id : List Int
  user_score : List Int
  global_avg_score : List Int
deriving DecidableEq, Repr

/-- Whole-run outcome: either every step completed giving a value, or
some expect/unwrap panicked and the process aborted. -/
inductive RunOutcome (α : Type) where
  | panicked : RunOutcome α
  | ok (val : α) : RunOutcome α
deriving DecidableEq, Repr

/-- The list-name cleanup in get_anilist_scores, to_string followed by
replacing each double-quote character with nothing: the serde Display
of a JSON string renders it quoted, and the replace removes every quote
character (names containing no quotes or escapes come back verbatim). -/
def jsonDisplayName (s : String) : String :=
  rustReplace ("\"" ++ s ++ "\"") "\"" ""

/-- The per-list loop of get_anilist_scores.  `avgNet i` is the network
outcome of the i-th issued average-score query (queries are issued only
for kept lists, counted by the second argument).  A list with no "name"
field is skipped; a non-string name panics via expect; only Watching
and Completed are parsed; an Err from run_query_avg_scores drops the
list and continues; an Ok appends the joined report. -/
def process_lists (avgNet : Nat → NetResult) :
    List Json → Nat → RunOutcome (List AnilistScores)
  | [], _ => .ok []
  | l :: rest, qi =>
    match l.get "name" with
    | none => process_lists avgNet rest qi
    | some nameVal =>
      match nameVal.as_str with
      | none => .panicked
      | some list_type =>
        match (match list_type with
               | "Watching" => some (parse_entry_values l)
               | "Completed" => some (parse_entry_values l)
               | _ => none) with
        | none => process_lists avgNet rest qi
        | some es =>
          match run_query_avg_scores (avgNet qi) with
          | .panicked => .panicked
          | .err _ => process_lists avgNet rest (qi + 1)
          | .ok avg_scores =>
            match process_lists avgNet rest (qi + 1) with
            | .panicked => .panicked
            | .ok tail =>
              .ok ({ list_type := jsonDisplayName list_type,
                     anilist_id := es.1,
                     user_score := es.2,
                     global_avg_score := avg_scores } :: tail)

/-- get_anilist_scores: fetch the user lists (an Err response yields
the empty report vector), then expect/unwrap the path
data.MediaListCollection.lists as an array and run the per-list loop. -/
def get_anilist_scores (listNet : NetResult) (avgNet : Nat → NetResult) :
    RunOutcome (List AnilistScores) :=
  match run_query listNet with
  | .panicked _ => .panicked
  | .err _ => .ok []
  | .ok query_res =>
    match ((query_res.get "data").bind
        (fun v => v.get "MediaListCollection")).bind (fun v => v.get "lists") with
    | none => .panicked
    | some lists =>
      match lists.as_array with
      | none => .panicked
      | some media_lists => process_lists avgNet media_lists 0

/-- An f64 value as far as the printed taste ratio is concerned: NaN,
a signed infinity, or a finite value (modelled exactly as a rational;
the integer sums of the program are exactly representable and IEEE 754
division is exact in the cases the claims fix). -/
inductive F64 where
  | nan : F64
  | posInf : F64
  | negInf : F64
  | finite (q : Rat) : F64
deriving DecidableEq, Repr

/-- IEEE 754 division of two exactly-represented integers, as performed
by `user_score_sum as f64 / avg_score_sum as f64`: 0/0 is NaN, x/0 for
x nonzero is a signed infinity, and a nonzero denominator gives the
(here exact rational) quotient. -/
def f64DivInt (num den : Int) : F64 :=
  if den = 0 then
    if num = 0 then .nan
    else if 0 < num then .posInf
    else .negInf
  else .finite ((num : Rat) / (den : Rat))

/-- The ratio printed for a report: the sum of the user scores over
the sum of the global average scores. -/
def taste_ratio (s : AnilistScores) : F64 :=
  f64DivInt (s.user_score.sum) (s.global_avg_score.sum)

/-- A polars dataframe as built by as_dataframe: four named columns. -/
structure DataFrame where
  list_type_col : List String
  anilist_id_col : List Int
  user_score_col : List Int
  global_avg_score_col : List Int
deriving DecidableEq, Repr

/-- The df! macro: building a dataframe succeeds exactly when all
columns have the same height. -/
def mkDataFrame (c1 : List String) (c2 c3 c4 : List Int) : Option DataFrame :=
  if c1.length = c2.length ∧ c2.length = c3.length ∧ c3.length = c4.length then
    some ⟨c1, c2, c3, c4⟩
  else
    none

/-- AnilistScores::as_dataframe: the list_type column is the list name
replicated to the user_score length; a df! failure is turned into an
Err with a message (the source interpolates the debug form of the
error, abstracted here). -/
def as_dataframe (s : AnilistScores) : Except String DataFrame :=
  match mkDataFrame (List.replicate s.user_score.length s.list_type)
      s.anilist_id s.user_score s.global_avg_score with
  | some df => .ok df
  | none => .error "Unable to save Anilist scores to dataframe."

/-- Observable outcome of AnilistScores::to_csv. -/
inductive CsvOutcome where
  | wrote (fname : String) (df : DataFrame) : CsvOutcome
  | fileError (msg : String) : CsvOutcome
  | printedError (msg : String) : CsvOutcome
deriving DecidableEq, Repr

/-- AnilistScores::to_csv: on a dataframe error it prints a message and
writes nothing; otherwise it creates the file (creation success is the
createOk parameter) and writes the dataframe. -/
def to_csv (s : AnilistScores) (fname : String) (createOk : Bool) : CsvOutcome :=
  match as_dataframe s with
  | .ok df =>
    if createOk then .wrote fname df
    else .fileError ("Unable to create file at " ++ fname ++ ".")
  | .error _ => .printedError "Unable to generate dataframe to save."

/-- The CSV file name built in main for one report. -/
def csv_fname (media_type list_type username : String) : String :=
  "anilist_" ++ media_type ++ "_" ++ list_type ++ "_score_" ++ username ++ ".csv"

/-- Rust char uppercasing on the ASCII range (the stdlib also maps
non-ASCII letters; the media-type arguments the program compares are
ASCII, where the two agree). -/
def asciiUpperChar (c : Char) : Char :=
  if 0x61 ≤ c.toNat ∧ c.toNat ≤ 0x7a then Char.ofNat (c.toNat - 0x20) else c

/-- str::to_uppercase, character by character. -/
def rustToUppercase (s : String) : String :=
  ⟨s.data.map asciiUpperChar⟩

/-- Startup argument handling of main: args().nth(1) is the username,
args().nth(2) the media type, each read with expect (modelled as an
Err carrying the panic message, the process exiting nonzero), and the
media type is uppercased before any use. -/
def startup (args : List String) : Except String (String × String) :=
  match args[1]? with
  | none => .error "No Anilist username provided."
  | some username =>
    match args[2]? with
    | none => .error "No media type provided. (ANIME/MANGA)"
    | some mediaArg => .ok (username, rustToUppercase mediaArg)

/-- main: argument handling happens strictly before the first network
round trip, so a startup failure yields the startup error whatever the
network would have answered. -/
def main_model (args : List String) (listNet : NetResult)
    (avgNet : Nat → NetResult) : Except String (RunOutcome (List AnilistScores)) :=
  match startup args with
  | .error e => .error e
  | .ok _ => .ok (get_anilist_scores listNet avgNet)

/-- Fixture: a per-alias response value carrying averageScore n. -/
def fixAlias (n : Int) : Json := .obj [("averageScore", .intNum n)]

/-- Fixture: alias values for a size-3 batch with scores 10, 11, 12. -/
def fixW1V : Nat → Json := fun i => fixAlias (10 + (i : Int))

/-- Fixture: alias values where alias query_i answers averageScore i. -/
def fixCV : Nat → Json := fun i => fixAlias (i : Int)

/-- Fixture: a Watching list with two well-formed entries. -/
def fixWatching : Json :=
  .obj [("name", .str "Watching"),
        ("entries", .arr [.obj [("mediaId", .intNum 1), ("score", .intNum 80)],
                          .obj [("mediaId", .intNum 2), ("score", .intNum 60)]])]

/-- Fixture: a Completed list with one well-formed entry. -/
def fixCompleted : Json :=
  .obj [("name", .str "Completed"),
        ("entries", .arr [.obj [("mediaId", .intNum 3), ("score", .intNum 70)]])]

/-- Fixture: a Paused list, which the program must drop. -/
def fixPaused : Json :=
  .obj [("name", .str "Paused"),
        ("entries", .arr [.obj [("mediaId", .intNum 4), ("score", .intNum 50)]])]

/-- Fixture: a list object with no "name" field. -/
def fixNameless : Json := .obj [("entries", .arr [])]

/-- Fixture: a full list-collection response body. -/
def fixListsBody (lists : List Json) : Json :=
  .obj [("data", .obj [("MediaListCollection", .obj [("lists", .arr lists)])])]

/-- Fixture: an average-score oracle whose first query dies on the
network and whose later queries answer one alias with score 75. -/
def fixSendFailAvg : Nat → NetResult := fun i =>
  if i = 0 then .sendFailure else .ok (batchedResponse [("query_0", fixAlias 75)])

/-- Fixture: an average-score oracle whose first query returns a
non-JSON body and whose later queries answer one alias with score 75. -/
def fixBadJsonAvg : Nat → NetResult := fun i =>
  if i = 0 then .badJson else .ok (batchedResponse [("query_0", fixAlias 75)])

/-- Fixture: an average-score oracle answering two aliases with scores
75 and 65 on every query. -/
def fixTwoAvg : Nat → NetResult := fun _ =>
  .ok (batchedResponse [("query_0", fixAlias 75), ("query_1", fixAlias 65)])

/-- Fixture: the report the Watching fixture produces under fixTwoAvg. -/
def fixReport : AnilistScores :=
  { list_type := "Watching", anilist_id := [1, 2],
    user_score := [80, 60], global_avg_score := [75, 65] }

/-- Fixture: an entries array mixing two well-formed elements with a
field-missing element, a float-valued element and a non-object. -/
def fixMixedEntries : List Json :=
  [.obj [("mediaId", .intNum 5), ("score", .intNum 7)],
   .obj [("mediaId", .intNum 9)],
   .obj [("mediaId", .floatNum (1 / 2)), ("score", .intNum 3)],
   .null,
   .obj [("mediaId", .intNum 2), ("score", .intNum 4)]]

/-- Fixture: a list object holding the mixed entries array. -/
def fixMixedList : Json := .obj [("entries", .arr fixMixedEntries)]

/-- Fixture: report with sums 50/50. -/
def fixFifty : AnilistScores :=
  { list_type := "Watching", anilist_id := [1], user_score := [50], global_avg_score := [50] }

/-- Fixture: report with empty score vectors, sums 0/0. -/
def fixEmptySums : AnilistScores :=
  { list_type := "Watching", anilist_id := [], user_score := [], global_avg_score := [] }

/-- Fixture: report whose column lengths disagree. -/
def fixRagged : AnilistScores :=
  { list_type := "Watching", anilist_id := [1], user_score := [50, 60], global_avg_score := [70] }

theorem strLeB_refl : ∀ a : List Char, strLeB a a = true
  | [] => rfl
  | c :: cs => by simp [strLeB, lt_irrefl c, strLeB_refl cs]

theorem strLeB_total : ∀ a b : List Char, strLeB a b = true ∨ strLeB b a = true
  | [], _ => Or.inl rfl
  | _ :: _, [] => Or.inr rfl
  | c :: cs, d :: ds => by
    rcases lt_trichotomy c d with h | h | h
    · exact Or.inl (by simp [strLeB, h])
    · subst h
      rcases strLeB_total cs ds with ih | ih
      · exact Or.inl (by simp [strLeB, lt_irrefl c, ih])
      · exact Or.inr (by simp [strLeB, lt_irrefl c, ih])
    · exact Or.inr (by simp [strLeB, h])

theorem strLeB_antisymm : ∀ a b : List Char,
    strLeB a b = true → strLeB b a = true → a = b
  | [], [], _, _ => rfl
  | [], _ :: _, _, hba => by simp [strLeB] at hba
  | _ :: _, [], hab, _ => by simp [strLeB] at hab
  | c :: cs, d :: ds, hab, hba => by
    rcases lt_trichotomy c d with h | h | h
    · simp [strLeB, h, asymm h] at hba
    · subst h
      simp only [strLeB, lt_irrefl c, if_neg (lt_irrefl c).elim, if_false] at hab hba
      rw [strLeB_antisymm cs ds (by simpa using hab) (by simpa using hba)]
    · simp [strLeB, h, asymm h] at hab

theorem strLeB_trans : ∀ a b c : List Char,
    strLeB a b = true → strLeB b c = true → strLeB a c = true
  | [], _, _, _, _ => rfl
  | _ :: _, [], _, hab, _ => by simp [strLeB] at hab
  | _ :: _, _ :: _, [], _, hbc => by simp [strLeB] at hbc
  | a :: as, b :: bs, c :: cs, hab, hbc => by
    rcases lt_trichotomy a b with h1 | h1 | h1
    · rcases lt_trichotomy b c with h2 | h2 | h2
      · simp [strLeB, lt_trans h1 h2]
      · subst h2; simp [strLeB, h1]
      · simp [strLeB, h2, asymm h2] at hbc
    · subst h1
      rcases lt_trichotomy a c with h2 | h2 | h2
      · simp [strLeB, h2]
      · subst h2
        simp only [strLeB, lt_irrefl a, if_neg (lt_irrefl a).elim, if_false] at hab hbc ⊢
        exact strLeB_trans as bs cs (by simpa using hab) (by simpa using hbc)
      · simp [strLeB, h2, asymm h2] at hbc
    · simp [strLeB, h1, asymm h1] at hab

theorem strLe_of_not_strLt {a b : String} (h : ¬ strLt a b) : strLe b a := by
  unfold strLt at h
  unfold strLe
  simpa using h

theorem strLt_of_not_strLe {a b : String} (h : ¬ strLe a b) : strLt b a := by
  unfold strLe at h
  unfold strLt
  simpa using h

theorem String.data_inj : ∀ {a b : String}, a.data = b.data → a = b
  | ⟨_⟩, ⟨_⟩, rfl => rfl

theorem strLe_antisymm {a b : String} (hab : strLe a b) (hba : strLe b a) : a = b :=
  String.data_inj (strLeB_antisymm a.data b.data hab hba)

theorem strLt_asymm {a b : String} (hab : strLt a b) (hba : strLt b a) : False := by
  unfold strLt at hab hba
  rcases strLeB_total a.data b.data with h | h
  · rw [hba] at h; cases h
  · rw [hab] at h; cases h

theorem strLt_irrefl {a : String} (h : strLt a a) : False := by
  unfold strLt at h
  rw [strLeB_refl] at h
  cases h

theorem strLe_total (a b : String) : strLe a b ∨ strLe b a :=
  strLeB_total a.data b.data

theorem strLe_trans {a b c : String} (hab : strLe a b) (hbc : strLe b c) : strLe a c :=
  strLeB_trans a.data b.data c.data hab hbc

theorem strLt_trans {a b c : String} (hab : strLt a b) (hbc : strLt b c) : strLt a c := by
  by_contra h
  have hca : strLe c a := strLe_of_not_strLt h
  unfold strLt at hab hbc
  rcases strLeB_total b.data c.data with h1 | h1
  · have : strLeB b.data a.data = true := strLeB_trans b.data c.data a.data h1 hca
    rw [this] at hab; cases hab
  · rw [h1] at hbc; cases hbc

theorem strLt_of_strLe_ne {a b : String} (hle : strLe a b) (hne : a ≠ b) : strLt a b := by
  by_contra h
  exact hne (strLe_antisymm hle (strLe_of_not_strLt h))

theorem strLe_of_strLt {a b : String} (h : strLt a b) : strLe a b := by
  rcases strLe_total a b with h1 | h1
  · exact h1
  · by_cases he : a = b
    · subst he; exact h1
    · exact absurd h (fun hab => strLt_asymm hab (strLt_of_strLe_ne h1 (Ne.symm he)))

instance : IsTotal (String × Json) keyLe := ⟨fun a b => strLe_total a.1 b.1⟩

instance : IsTrans (String × Json) keyLe := ⟨fun _ _ _ => strLe_trans⟩

instance : IsTotal (String × Int) pairLe := by
  constructor
  intro a b
  rcases strLe_total a.1 b.1 with h | h
  · by_cases he : a.1 = b.1
    · rcases Int.le_total a.2 b.2 with h2 | h2
      · exact Or.inl (Or.inr ⟨he, h2⟩)
      · exact Or.inr (Or.inr ⟨he.symm, h2⟩)
    · exact Or.inl (Or.inl (strLt_of_strLe_ne h he))
  · by_cases he : b.1 = a.1
    · rcases Int.le_total a.2 b.2 with h2 | h2
      · exact Or.inl (Or.inr ⟨he.symm, h2⟩)
      · exact Or.inr (Or.inr ⟨he, h2⟩)
    · exact Or.inr (Or.inl (strLt_of_strLe_ne h he))

instance : IsTrans (String × Int) pairLe := by
  constructor
  rintro a b c (hab | ⟨hab, hab2⟩) (hbc | ⟨hbc, hbc2⟩)
  · exact Or.inl (strLt_trans hab hbc)
  · exact Or.inl (hbc ▸ hab)
  · exact Or.inl (hab ▸ hbc)
  · exact Or.inr ⟨hab.trans hbc, le_trans hab2 hbc2⟩

instance : IsAntisymm (String × Int) pairLe := by
  constructor
  rintro ⟨a1, a2⟩ ⟨b1, b2⟩ (hab | ⟨hab, hab2⟩) (hba | ⟨hba, hba2⟩)
  · exact absurd hba (fun h => strLt_asymm hab h)
  · exact absurd hab (hba ▸ fun h => strLt_irrefl h)
  · exact absurd hba (hab ▸ fun h => strLt_irrefl h)
  · simp only [Prod.mk.injEq]
    exact ⟨hab, le_antisymm hab2 hba2⟩

theorem replace_query_digit_fin : ∀ i : Fin 10,
    rustReplace ("query_" ++ toString (i : Nat)) "query_" "" = toString (i : Nat) := by
  decide

theorem digit_strLt_fin : ∀ i j : Fin 10, i < j →
    strLt (toString (i : Nat)) (toString (j : Nat)) := by
  decide

theorem replace_query_digit {i : Nat} (h : i < 10) :
    rustReplace ("query_" ++ toString i) "query_" "" = toString i :=
  replace_query_digit_fin ⟨i, h⟩

theorem digit_strLt {i j : Nat} (hi : i < 10) (hj : j < 10) (hij : i < j) :
    strLt (toString i) (toString j) :=
  digit_strLt_fin ⟨i, hi⟩ ⟨j, hj⟩ hij

/-- C1: for a batched-average response whose data object holds aliases
query_0 .. query_{k-1} in arbitrary key order, the extraction of
run_query_avg_scores returns the k scores in request order — the score
at position i is the averageScore answered under alias query_i —
provided k ≤ 10.  (The sort key is the string form of the recovered
suffix, so for k ≥ 11 lexicographic and numeric suffix order differ and
the property fails; see the counterexample.) -/
theorem c1_batched_averages_request_order (k : Nat) (hk : k ≤ 10) (v : Nat → Json)
    (fields : List (String × Json))
    (hperm : fields.Perm (canonicalFields k v)) :
    run_query_avg_scores_extract (batchedResponse fields)
      = some ((List.range k).map (fun i => avgScoreOf (v i))) := by
  set g : String × Json → String × Int :=
    fun kv => (rustReplace kv.1 "query_" "", avgScoreOf kv.2) with hg
  have hstep : run_query_avg_scores_extract (batchedResponse fields)
      = some ((List.insertionSort pairLe ((List.insertionSort keyLe fields).map g)).map Prod.snd) := rfl
  rw [hstep]
  set target : List (String × Int) :=
    (List.range k).map (fun i => (toString i, avgScoreOf (v i))) with htarget
  have hmapg : (canonicalFields k v).map g = target := by
    rw [canonicalFields, htarget, List.map_map]
    apply List.map_congr_left
    intro i hi
    have hik : i < k := List.mem_range.1 hi
    simp [hg, Function.comp, replace_query_digit (lt_of_lt_of_le hik hk)]
  have hXperm : ((List.insertionSort keyLe fields).map g).Perm target := by
    have h1 := (List.perm_insertionSort keyLe fields).map g
    have h2 := hperm.map g
    rw [hmapg] at h2
    exact h1.trans h2
  have htargetSorted : List.Sorted pairLe target := by
    rw [htarget]
    refine List.pairwise_map.2 ?_
    refine (List.sorted_lt_range k).imp_of_mem ?_
    intro i j hi hj hij
    have hik : i < k := List.mem_range.1 hi
    have hjk : j < k := List.mem_range.1 hj
    exact Or.inl (digit_strLt (lt_of_lt_of_le hik hk) (lt_of_lt_of_le hjk hk) hij)
  have hsorted := List.sorted_insertionSort pairLe ((List.insertionSort keyLe fields).map g)
  have hperm2 := (List.perm_insertionSort pairLe ((List.insertionSort keyLe fields).map g)).trans hXperm
  rw [List.eq_of_perm_of_sorted hperm2 hsorted htargetSorted, htarget, List.map_map]
  rfl

/-- C1 witness: a size-3 batch with scores 10, 11, 12 is returned in
request order. -/
theorem c1_batched_averages_request_order_witness :
    (3 : Nat) ≤ 10 ∧
      run_query_avg_scores_extract (batchedResponse (canonicalFields 3 fixW1V))
        = some [10, 11, 12] :=
  ⟨by decide,
   (c1_batched_averages_request_order 3 (by decide) fixW1V (canonicalFields 3 fixW1V)
      (List.Perm.refl _)).trans (by decide)⟩

/-- C1 counterexample: with k = 11 aliases answering averageScore i
under alias query_i, the extraction returns the scores in lexicographic
suffix order 0, 1, 10, 2, ..., 9, not in request order 0 .. 10, so the
claim fails for k ≥ 11. -/
theorem c1_lexicographic_order_counterexample :
    run_query_avg_scores_extract (batchedResponse (canonicalFields 11 fixCV))
        = some [0, 1, 10, 2, 3, 4, 5, 6, 7, 8, 9]
      ∧ run_query_avg_scores_extract (batchedResponse (canonicalFields 11 fixCV))
        ≠ some ((List.range 11).map (fun i => avgScoreOf (fixCV i))) := by
  constructor
  · decide
  · decide

/-- C2: the printed taste ratio is the sum of the user scores divided
by the sum of the global average scores; sums 50/50 give exactly 1.0,
sums 0/0 give NaN (an explicit undefined signal, not 0), and whenever
the global-average sum is 0 the result is NaN or a signed infinity,
never a silently finite value. -/
theorem c2_taste_ratio_signals (s : AnilistScores) :
    (s.user_score.sum = 50 ∧ s.global_avg_score.sum = 50 → taste_ratio s = .finite 1)
    ∧ (s.user_score.sum = 0 ∧ s.global_avg_score.sum = 0 → taste_ratio s = .nan)
    ∧ (s.global_avg_score.sum = 0 →
        taste_ratio s = .nan ∨ taste_ratio s = .posInf ∨ taste_ratio s = .negInf) := by
  refine ⟨?_, ?_, ?_⟩
  · rintro ⟨h1, h2⟩
    rw [taste_ratio, h1, h2]
    norm_num [f64DivInt]
  · rintro ⟨h1, h2⟩
    rw [taste_ratio, h1, h2]
    simp [f64DivInt]
  · intro h2
    rw [taste_ratio, h2]
    rcases lt_trichotomy (s.user_score.sum) 0 with h | h | h
    · exact Or.inr (Or.inr (by simp [f64DivInt, h.ne, not_lt_of_lt h]))
    · exact Or.inl (by simp [f64DivInt, h])
    · exact Or.inr (Or.inl (by simp [f64DivInt, h.ne.symm, h]))

/-- C2 witness: sums 50/50 print exactly 1.0, sums 0/0 print NaN. -/
theorem c2_taste_ratio_signals_witness :
    taste_ratio fixFifty = .finite 1 ∧ taste_ratio fixEmptySums = .nan :=
  ⟨(c2_taste_ratio_signals fixFifty).1 (by decide),
   (c2_taste_ratio_signals fixEmptySums).2.1 (by decide)⟩

/-- C4: joining the id, user-score and average-score sequences into a
dataframe succeeds whenever the three sequences have equal length, and
on unequal lengths it fails loudly: as_dataframe returns an Err and
to_csv prints an error instead of writing a truncated file. -/
theorem c4_join_equal_lengths_loud_failure (s : AnilistScores) (fname : String) (createOk : Bool) :
    (s.anilist_id.length = s.user_score.length
        ∧ s.user_score.length = s.global_avg_score.length →
      ∃ df, as_dataframe s = .ok df)
    ∧ (¬ (s.anilist_id.length = s.user_score.length
          ∧ s.user_score.length = s.global_avg_score.length) →
      as_dataframe s = .error "Unable to save Anilist scores to dataframe."
        ∧ to_csv s fname createOk = .printedError "Unable to generate dataframe to save.") := by
  by_cases hc : s.anilist_id.length = s.user_score.length
      ∧ s.user_score.length = s.global_avg_score.length
  · obtain ⟨h1, h2⟩ := hc
    refine ⟨fun _ => ⟨⟨List.replicate s.user_score.length s.list_type,
        s.anilist_id, s.user_score, s.global_avg_score⟩, ?_⟩,
      fun hn => absurd ⟨h1, h2⟩ hn⟩
    rw [as_dataframe, mkDataFrame, if_pos ⟨by simp [h1], h1, h2⟩]
  · refine ⟨fun hcc => absurd hcc hc, fun _ => ?_⟩
    have hmk : mkDataFrame (List.replicate s.user_score.length s.list_type)
        s.anilist_id s.user_score s.global_avg_score = none := by
      rw [mkDataFrame, if_neg]
      rintro ⟨_, hb, hd⟩
      exact hc ⟨hb, hd⟩
    constructor
    · rw [as_dataframe, hmk]
    · rw [to_csv, as_dataframe, hmk]

/-- C4 witness: equal-length columns join into a dataframe; the ragged
fixture is rejected with a visible error from both as_dataframe and
to_csv. -/
theorem c4_join_equal_lengths_loud_failure_witness :
    (∃ df, as_dataframe fixReport = .ok df)
    ∧ as_dataframe fixRagged = .error "Unable to save Anilist scores to dataframe."
    ∧ to_csv fixRagged "out.csv" true = .printedError "Unable to generate dataframe to save." :=
  ⟨(c4_join_equal_lengths_loud_failure fixReport "out.csv" true).1 (by decide),
   (c4_join_equal_lengths_loud_failure fixRagged "out.csv" true).2 (by decide)⟩

theorem parseEntriesLoop_eq (es : List Json) :
    parseEntriesLoop es
      = ((es.filter wellFormedEntry).map entryId,
         (es.filter wellFormedEntry).map entryScore) := by
  induction es with
  | nil => rfl
  | cons e rest ih =>
    rcases h1 : e.get "mediaId" with _ | idVal
    · simp [parseEntriesLoop, List.filter, wellFormedEntry, h1, ih]
    · rcases h2 : e.get "score" with _ | scoreVal
      · simp [parseEntriesLoop, List.filter, wellFormedEntry, h1, h2, ih]
      · rcases h3 : idVal.as_i64 with _ | id
        · simp [parseEntriesLoop, List.filter, wellFormedEntry, h1, h2, h3, ih]
        · rcases h4 : scoreVal.as_i64 with _ | score
          · simp [parseEntriesLoop, List.filter, wellFormedEntry, h1, h2, h3, h4, ih]
          · simp [parseEntriesLoop, List.filter, wellFormedEntry, entryId, entryScore,
              h1, h2, h3, h4, ih]

/-- C5: on a list whose "entries" field is an array, parse_entry_values
returns exactly the ids and scores of the well-formed elements,
co-indexed in the declared order of the source entries; malformed
elements are silently
skipped, and both output sequences have length equal to the number of
well-formed elements. -/
theorem c5_lenient_entry_extraction (v : Json) (es : List Json)
    (h : v.get "entries" = some (.arr es)) :
    parse_entry_values v
        = ((es.filter wellFormedEntry).map entryId,
           (es.filter wellFormedEntry).map entryScore)
      ∧ (parse_entry_values v).1.length = (es.filter wellFormedEntry).length
      ∧ (parse_entry_values v).2.length = (es.filter wellFormedEntry).length := by
  have hv : parse_entry_values v = parseEntriesLoop es := by
    rw [parse_entry_values, h]
    rfl
  rw [hv, parseEntriesLoop_eq]
  simp

/-- C5 witness: two well-formed entries interleaved with a
field-missing element, a float-valued element and a non-object yield
exactly the two id/score pairs in order. -/
theorem c5_lenient_entry_extraction_witness :
    fixMixedList.get "entries" = some (.arr fixMixedEntries)
    ∧ parse_entry_values fixMixedList = ([5, 2], [7, 4]) :=
  ⟨rfl, ((c5_lenient_entry_extraction fixMixedList fixMixedEntries rfl).1).trans (by decide)⟩

/-- C7: in the batched-average extraction, an alias value whose
averageScore field is absent, or present but not an integer-backed
number, contributes score 0 rather than an error. -/
theorem c7_missing_average_defaults_zero (v : Json) :
    (v.get "averageScore" = none → avgScoreOf v = 0)
    ∧ (∀ s, v.get "averageScore" = some s → s.as_i64 = none → avgScoreOf v = 0) := by
  constructor
  · intro h
    rw [avgScoreOf, h]
  · intro s h1 h2
    simp [avgScoreOf, h1, h2]

/-- C7 witness: an alias object without averageScore and one whose
averageScore is a string both yield score 0. -/
theorem c7_missing_average_defaults_zero_witness :
    avgScoreOf (Json.obj []) = 0
    ∧ avgScoreOf (Json.obj [("averageScore", Json.str "n/a")]) = 0 :=
  ⟨(c7_missing_average_defaults_zero (Json.obj [])).1 rfl,
   (c7_missing_average_defaults_zero (Json.obj [("averageScore", Json.str "n/a")])).2
      (Json.str "n/a") rfl rfl⟩

/-- C8: a missing username or media-type argument makes main fail with
the respective descriptive message, with an outcome independent of
every network answer (startup aborts before any query); when both
arguments are present, startup hands back the username and the
media type uppercased. -/
theorem c8_startup_arguments (args : List String) (listNet listNet2 : NetResult)
    (avgNet avgNet2 : Nat → NetResult) :
    (args[1]? = none →
        main_model args listNet avgNet = .error "No Anilist username provided."
        ∧ main_model args listNet avgNet = main_model args listNet2 avgNet2)
    ∧ (∀ u, args[1]? = some u → args[2]? = none →
        main_model args listNet avgNet = .error "No media type provided. (ANIME/MANGA)"
        ∧ main_model args listNet avgNet = main_model args listNet2 avgNet2)
    ∧ (∀ u m, args[1]? = some u → args[2]? = some m →
        startup args = .ok (u, rustToUppercase m)) := by
  refine ⟨?_, ?_, ?_⟩
  · intro h
    constructor <;> simp [main_model, startup, h]
  · intro u h1 h2
    constructor <;> simp [main_model, startup, h1, h2]
  · intro u m h1 h2
    simp [startup, h1, h2]

/-- C8 witness: with no arguments past the program name main aborts
with the username message for any two network behaviours; the
lowercase media type "anime" is normalized to "ANIME". -/
theorem c8_startup_arguments_witness :
    main_model ["prog"] NetResult.sendFailure fixTwoAvg
        = .error "No Anilist username provided."
    ∧ startup ["prog", "koi", "anime"] = .ok ("koi", "ANIME") := by
  constructor
  · exact ((c8_startup_arguments ["prog"] NetResult.sendFailure NetResult.badJson
        fixTwoAvg fixSendFailAvg).1 rfl).1
  · have h := (c8_startup_arguments ["prog", "koi", "anime"] NetResult.sendFailure
        NetResult.badJson fixTwoAvg fixSendFailAvg).2.2 "koi" "anime" rfl rfl
    have hu : rustToUppercase "anime" = "ANIME" := by decide
    rw [hu] at h
    exact h

/-- C9: a list object without a "name" field is skipped silently: the
run result on the remaining lists is unchanged, no report is
produced for it and no average query is issued. -/
theorem c9_nameless_list_skipped (avgNet : Nat → NetResult) (l : Json)
    (rest : List Json) (qi : Nat) (h : l.get "name" = none) :
    process_lists avgNet (l :: rest) qi = process_lists avgNet rest qi := by
  rw [process_lists, h]

/-- C9 witness: the nameless fixture in front of the Watching fixture
is simply dropped. -/
theorem c9_nameless_list_skipped_witness :
    process_lists fixTwoAvg [fixNameless, fixWatching] 0
      = process_lists fixTwoAvg [fixWatching] 0 :=
  c9_nameless_list_skipped fixTwoAvg fixNameless [fixWatching] 0 rfl

/-- C10: parse_entry_values is total: when "entries" is absent or not
an array it returns two empty sequences instead of failing. -/
theorem c10_entries_parse_total (v : Json) :
    (v.get "entries" = none → parse_entry_values v = ([], []))
    ∧ (∀ ev, v.get "entries" = some ev → ev.as_array = none →
        parse_entry_values v = ([], [])) := by
  constructor
  · intro h
    rw [parse_entry_values, h]
    rfl
  · intro ev h1 h2
    rw [parse_entry_values, h1]
    simp [Option.bind, h2]

/-- C10 witness: a list with no entries field and one whose entries is
a string both parse to two empty sequences. -/
theorem c10_entries_parse_total_witness :
    parse_entry_values (Json.obj []) = ([], [])
    ∧ parse_entry_values (Json.obj [("entries", Json.str "oops")]) = ([], []) :=
  ⟨(c10_entries_parse_total (Json.obj [])).1 rfl,
   (c10_entries_parse_total (Json.obj [("entries", Json.str "oops")])).2
      (Json.str "oops") rfl rfl⟩

/-- C3: what a transport failure on the average-score round trip of one
list
does to the run.  A response-body decoding failure (text retrieval or
JSON parse) makes run_query_avg_scores return an Err, so only that list
is dropped and the loop continues with the remaining lists; but a
network failure during send panics through the expect in run_query and
aborts the whole run (see the counterexample), so the original claim
holds only for the two body-decoding failures. -/
theorem c3_decode_failure_drops_list (avgNet : Nat → NetResult) (l : Json)
    (rest : List Json) (qi : Nat) (name : String)
    (hname : l.get "name" = some (.str name))
    (hwc : name = "Watching" ∨ name = "Completed") :
    ((avgNet qi = .textFailure ∨ avgNet qi = .badJson) →
        process_lists avgNet (l :: rest) qi = process_lists avgNet rest (qi + 1))
    ∧ (avgNet qi = .sendFailure → process_lists avgNet (l :: rest) qi = .panicked) := by
  constructor
  · rintro (he | he) <;> rcases hwc with h | h <;> subst h <;>
      simp [process_lists, hname, Json.as_str, run_query_avg_scores, run_query, he]
  · intro he
    rcases hwc with h | h <;> subst h <;>
      simp [process_lists, hname, Json.as_str, run_query_avg_scores, run_query, he]

/-- C3 witness: a non-JSON body on the average query for the Watching
list
drops only that list and the loop goes on to the Completed list. -/
theorem c3_decode_failure_drops_list_witness :
    fixBadJsonAvg 0 = .badJson
    ∧ process_lists fixBadJsonAvg [fixWatching, fixCompleted] 0
        = process_lists fixBadJsonAvg [fixCompleted] 1 :=
  ⟨rfl,
   (c3_decode_failure_drops_list fixBadJsonAvg fixWatching [fixCompleted] 0 "Watching"
      rfl (Or.inl rfl)).1 (Or.inr rfl)⟩

/-- C3 counterexample: a network failure during the send of the average
query for the first list panics the whole run — the outcome is a process
abort, not the claimed continuation that would report the remaining
Completed list. -/
theorem c3_send_failure_aborts_run_counterexample :
    get_anilist_scores (.ok (fixListsBody [fixWatching, fixCompleted])) fixSendFailAvg
        = .panicked
    ∧ get_anilist_scores (.ok (fixListsBody [fixWatching, fixCompleted])) fixSendFailAvg
        ≠ .ok [{ list_type := "Completed", anilist_id := [3], user_score := [70],
                 global_avg_score := [75] }] := by
  constructor
  · decide
  · decide

/-- C6: every report an (un-panicked) run returns comes from a list
named exactly "Watching" or "Completed"; a list with any other name,
such as "Paused", contributes no report, and hence no output file or
console line, which are produced only by iterating the reports. -/
theorem c6_only_watching_completed (avgNet : Nat → NetResult) (lists : List Json)
    (qi : Nat) (reports : List AnilistScores)
    (h : process_lists avgNet lists qi = .ok reports) :
    ∀ r ∈ reports, r.list_type = "Watching" ∨ r.list_type = "Completed" := by
  induction lists generalizing qi reports with
  | nil =>
    simp only [process_lists, RunOutcome.ok.injEq] at h
    subst h
    simp
  | cons l rest ih =>
    rw [process_lists] at h
    split at h
    · exact ih _ _ h
    split at h
    · cases h
    split at h
    · exact ih _ _ h
    next es hmatch =>
      split at h
      · cases h
      · exact ih _ _ h
      next avg havg =>
        split at h
        · cases h
        next tail htail =>
          simp only [RunOutcome.ok.injEq] at h
          subst h
          intro r hr
          rcases List.mem_cons.1 hr with hr | hr
          · subst hr
            split at hmatch
            · exact Or.inl (show jsonDisplayName "Watching" = "Watching" by decide)
            · exact Or.inr (show jsonDisplayName "Completed" = "Completed" by decide)
            · cases hmatch
          · exact ih _ _ htail r hr

/-- C6 witness: a run over a Watching list and a Paused list returns
exactly the Watching report, whose name is one of the two kept. -/
theorem c6_only_watching_completed_witness :
    process_lists fixTwoAvg [fixWatching, fixPaused] 0 = .ok [fixReport]
    ∧ (fixReport.list_type = "Watching" ∨ fixReport.list_type = "Completed") :=
  ⟨by decide,
   c6_only_watching_completed fixTwoAvg [fixWatching, fixPaused] 0 [fixReport]
      (by decide) fixReport (by simp)⟩

end Anilist
